import Mathlib

/-!
Verification development for the `sih-2` repository: a shallow embedding of
its setup scripts (`setup.bat`, `setup.ps1`), the 3D crop-field component
(`Landing3D` / `FarmField` / `InstancedCrops`), and the dashboard components
(`Dashboard`, `LanguageSelector`, `YieldPredictionCard`).
-/

set_option autoImplicit false

namespace SIH

/-! ### Setup scripts (`setup.bat`, `setup.ps1`)

Both scripts run the same sequence of commands.  A command is either followed
by an explicit status check (`if %errorlevel% neq 0 ... exit /b 1` in the
batch file, a `try/catch` or `if ($LASTEXITCODE -ne 0) ... exit 1` in the
PowerShell file) or not (the `python -m venv` and activate commands run
unchecked).  We model a script as the list of its commands, each tagged with
whether its status is checked immediately afterwards. -/

inductive SetupStep where
  | checkPython
  | checkNode
  | npmInstall
  | venvBackend
  | activateBackend
  | pipBackend
  | venvMl
  | activateMl
  | pipMl
  | printInstructions
  deriving DecidableEq, Repr

/-- Command sequence of `setup.bat`: the two interpreter checks and the three
dependency installs are each followed by an exit-code check; the venv
creation/activation commands and the final instructions are not. -/
def setupBatScript : List (SetupStep × Bool) :=
  [(.checkPython, true), (.checkNode, true), (.npmInstall, true),
   (.venvBackend, false), (.activateBackend, false), (.pipBackend, true),
   (.venvMl, false), (.activateMl, false), (.pipMl, true),
   (.printInstructions, false)]

/-- Command sequence of `setup.ps1`: structurally the same checks as the
batch variant (try/catch around the interpreter probes, `$LASTEXITCODE`
checks after `npm install` and both `pip install` runs). -/
def setupPs1Script : List (SetupStep × Bool) :=
  [(.checkPython, true), (.checkNode, true), (.npmInstall, true),
   (.venvBackend, false), (.activateBackend, false), (.pipBackend, true),
   (.venvMl, false), (.activateMl, false), (.pipMl, true),
   (.printInstructions, false)]

/-- Run a script top-to-bottom given each command's outcome (`ok s = true`
means the command succeeds).  A checked command that fails makes the script
exit with code 1 immediately; reaching the end exits with code 0.  Returns
the exit code together with the commands actually executed, in order. -/
def runScript (ok : SetupStep → Bool) : List (SetupStep × Bool) → ℕ × List SetupStep
  | [] => (0, [])
  | (s, chk) :: rest =>
    if chk = true ∧ ok s = false then
      (1, [s])
    else
      let r := runScript ok rest
      (r.1, s :: r.2)

theorem runScript_all_ok (ok : SetupStep → Bool) :
    ∀ script : List (SetupStep × Bool),
      (∀ p ∈ script, p.2 = true → ok p.1 = true) →
      runScript ok script = (0, script.map Prod.fst)
  | [], _ => rfl
  | (s, chk) :: rest, h => by
    have hs : ¬(chk = true ∧ ok s = false) := by
      rintro ⟨hchk, hfail⟩
      have := h (s, chk) (List.mem_cons_self _ _) hchk
      simp [this] at hfail
    have ih := runScript_all_ok ok rest (fun p hp => h p (List.mem_cons_of_mem _ hp))
    simp [runScript, hs, ih]

theorem runScript_first_fail (ok : SetupStep → Bool) :
    ∀ (pre : List (SetupStep × Bool)) (c : SetupStep) (post : List (SetupStep × Bool)),
      (∀ p ∈ pre, p.2 = true → ok p.1 = true) →
      ok c = false →
      runScript ok (pre ++ (c, true) :: post) = (1, pre.map Prod.fst ++ [c])
  | [], c, post, _, hc => by
    simp [runScript, hc]
  | (s, chk) :: pre, c, post, h, hc => by
    have hs : ¬(chk = true ∧ ok s = false) := by
      rintro ⟨hchk, hfail⟩
      have := h (s, chk) (List.mem_cons_self _ _) hchk
      simp [this] at hfail
    have ih := runScript_first_fail ok pre c post
      (fun p hp => h p (List.mem_cons_of_mem _ hp)) hc
    simp [runScript, hs, ih]

/-- C1: for each setup script (batch and PowerShell variants), if every
checked prerequisite/install command succeeds, the script runs every command
and exits with code 0; and whenever a checked command fails while every
checked command before it succeeded, the script exits with code 1
immediately after that command, executing none of the subsequent commands. -/
theorem setup_scripts_fail_fast (ok : SetupStep → Bool) :
    (((∀ p ∈ setupBatScript, p.2 = true → ok p.1 = true) →
        runScript ok setupBatScript = (0, setupBatScript.map Prod.fst)) ∧
      ∀ (pre : List (SetupStep × Bool)) (c : SetupStep) (post : List (SetupStep × Bool)),
        setupBatScript = pre ++ (c, true) :: post →
        (∀ p ∈ pre, p.2 = true → ok p.1 = true) →
        ok c = false →
        runScript ok setupBatScript = (1, pre.map Prod.fst ++ [c])) ∧
    (((∀ p ∈ setupPs1Script, p.2 = true → ok p.1 = true) →
        runScript ok setupPs1Script = (0, setupPs1Script.map Prod.fst)) ∧
      ∀ (pre : List (SetupStep × Bool)) (c : SetupStep) (post : List (SetupStep × Bool)),
        setupPs1Script = pre ++ (c, true) :: post →
        (∀ p ∈ pre, p.2 = true → ok p.1 = true) →
        ok c = false →
        runScript ok setupPs1Script = (1, pre.map Prod.fst ++ [c])) := by
  refine ⟨⟨fun h => runScript_all_ok ok _ h, ?_⟩,
          ⟨fun h => runScript_all_ok ok _ h, ?_⟩⟩ <;>
    · intro pre c post hsplit hpre hc
      rw [hsplit]
      exact runScript_first_fail ok pre c post hpre hc

/-- Witness for C1: with `npm install` failing and everything before it
succeeding, `setup.bat` exits with code 1 right after `npm install`, having
executed only the two interpreter checks and `npm install`. -/
theorem setup_scripts_fail_fast_witness :
    runScript (fun s => !decide (s = SetupStep.npmInstall)) setupBatScript =
      (1, [SetupStep.checkPython, SetupStep.checkNode, SetupStep.npmInstall]) := by
  have h := (setup_scripts_fail_fast (fun s => !decide (s = SetupStep.npmInstall))).1.2
    [(.checkPython, true), (.checkNode, true)] .npmInstall
    [(.venvBackend, false), (.activateBackend, false), (.pipBackend, true),
     (.venvMl, false), (.activateMl, false), (.pipMl, true),
     (.printInstructions, false)]
    (by decide) (by decide) (by decide)
  simpa using h

/-! ### 3D crop field (`Landing3D` / `FarmField` / `InstancedCrops`)

`InstancedCrops` computes, once per mount, a list of `count` per-instance
seeds from a pseudo-random stream, and in its per-frame callback derives each
instance's height from the prediction score via `THREE.MathUtils.clamp` and
`THREE.MathUtils.lerp`.  Random streams are modelled as functions `ℕ → α`
indexed by call number; the loop body makes four calls per iteration. -/

/-- `THREE.MathUtils.clamp(value, min, max) = Math.max(min, Math.min(max, value))`. -/
def clamp {α : Type} [LinearOrder α] (value lo hi : α) : α :=
  max lo (min hi value)

/-- `THREE.MathUtils.lerp(x, y, t) = (1 - t) * x + t * y`. -/
def lerp {α : Type} [Field α] (x y t : α) : α :=
  (1 - t) * x + t * y

/-- One entry of the `seeds` array built in `InstancedCrops`. -/
structure CropSeed (α : Type) where
  x : α
  z : α
  h : α
  r : α
  deriving DecidableEq

/-- Body of the `for` loop in the `seeds` `useMemo`: iteration `i` makes four
successive calls to the random stream and pushes
`{ x: rx*8-4, z: rz*8-4, h: 0.6+rh*1.8, r: rr*Math.PI*2 }`
(`piv` stands for `Math.PI`). -/
def seedAt {α : Type} [Field α] (piv : α) (rand : ℕ → α) (i : ℕ) : CropSeed α :=
  { x := rand (4 * i) * 8 - 4
  , z := rand (4 * i + 1) * 8 - 4
  , h := 0.6 + rand (4 * i + 2) * 1.8
  , r := rand (4 * i + 3) * piv * 2 }

/-- The `seeds` array for a given random stream: `count` loop iterations. -/
def seeds {α : Type} [Field α] (piv : α) (rand : ℕ → α) (count : ℕ) : List (CropSeed α) :=
  (List.range count).map (seedAt piv rand)

inductive JsError where
  | typeError
  deriving DecidableEq, Repr

/-- `const rng = new Math.seedrandom ? new Math.seedrandom('krishi') : null`.
`new` binds tighter than `?:`, so the condition is the expression
`new Math.seedrandom`: when `Math.seedrandom` is undefined this throws a
TypeError instead of selecting the `null` branch, and when it is defined the
constructed object is truthy, so the seeded branch is always taken.  The
`null` outcome (and with it the `Math.random` fallback) is unreachable. -/
def rngInit {α : Type} (seedrandom : Option (String → ℕ → α)) :
    Except JsError (Option (ℕ → α)) :=
  match seedrandom with
  | none => .error .typeError
  | some ctor => .ok (some (ctor "krishi"))

/-- The whole `seeds` `useMemo` body: initialise `rng`, then run the loop
drawing each value from `rng` when it is non-null and from `Math.random`
otherwise. -/
def seedsMemo {α : Type} [Field α] (piv : α) (seedrandom : Option (String → ℕ → α))
    (mathRandom : ℕ → α) (count : ℕ) : Except JsError (List (CropSeed α)) :=
  match rngInit seedrandom with
  | .error e => .error e
  | .ok (some rng) => .ok (seeds piv rng count)
  | .ok none => .ok (seeds piv mathRandom count)

/-- C2 (failing input): when `Math.seedrandom` is not available, evaluating
the seeds computation throws a TypeError instead of falling back to
`Math.random` — no list of positions is produced at all. -/
theorem seedsMemo_throws_without_seedrandom :
    seedsMemo (157 / 50 : ℚ) none (fun _ => 1 / 2) 5 = .error .typeError := rfl

/-- Per-frame height of one instance:
`THREE.MathUtils.lerp(0.3, s.h, THREE.MathUtils.clamp(predictionScore, 0, 1))`. -/
def cropHeight {α : Type} [LinearOrderedField α] (predictionScore : α) (s : CropSeed α) : α :=
  lerp 0.3 s.h (clamp predictionScore 0 1)

theorem clamp_mem_Icc {α : Type} [LinearOrder α] (value lo hi : α) (h : lo ≤ hi) :
    lo ≤ clamp value lo hi ∧ clamp value lo hi ≤ hi := by
  constructor
  · exact le_max_left _ _
  · exact max_le h (min_le_left _ _)

theorem seeds_length {α : Type} [Field α] (piv : α) (rand : ℕ → α) (count : ℕ) :
    (seeds piv rand count).length = count := by
  simp [seeds]

/-- C3: the instance array always has exactly the requested number of
entries, and for every prediction score (clamped or not in `[0,1]`) every
instance's per-frame height is the lerp between the configured minimum `0.3`
and that instance's per-instance maximum `s.h` by the clamped score, hence
lies between `0.3` and `s.h`. -/
theorem instancedCrops_count_and_height {α : Type} [LinearOrderedField α]
    (piv : α) (rand : ℕ → α) (count : ℕ) (predictionScore : α)
    (hrand : ∀ i, 0 ≤ rand i ∧ rand i < 1) :
    (seeds piv rand count).length = count ∧
    ∀ s ∈ seeds piv rand count,
      cropHeight predictionScore s = lerp 0.3 s.h (clamp predictionScore 0 1) ∧
      0.3 ≤ cropHeight predictionScore s ∧
      cropHeight predictionScore s ≤ s.h := by
  refine ⟨seeds_length piv rand count, ?_⟩
  intro s hs
  refine ⟨rfl, ?_, ?_⟩ <;>
  · obtain ⟨i, _, rfl⟩ := List.mem_map.1 hs
    obtain ⟨ht0, ht1⟩ := clamp_mem_Icc predictionScore (0 : α) 1 zero_le_one
    have hrh := (hrand (4 * i + 2)).1
    simp only [cropHeight, lerp, seedAt]
    nlinarith [ht0, ht1, hrh]

/-- Witness for C3: at a concrete constant random stream, three requested
instances and a prediction score of 2 (outside `[0,1]`). -/
theorem instancedCrops_count_and_height_witness :
    (∀ i : ℕ, (0 : ℚ) ≤ (fun _ : ℕ => (1 : ℚ) / 2) i ∧ (fun _ : ℕ => (1 : ℚ) / 2) i < 1) ∧
    ((seeds (157 / 50 : ℚ) (fun _ => 1 / 2) 3).length = 3 ∧
      ∀ s ∈ seeds (157 / 50 : ℚ) (fun _ => 1 / 2) 3,
        cropHeight (2 : ℚ) s = lerp 0.3 s.h (clamp (2 : ℚ) 0 1) ∧
        0.3 ≤ cropHeight (2 : ℚ) s ∧
        cropHeight (2 : ℚ) s ≤ s.h) :=
  ⟨fun _ => by norm_num,
    instancedCrops_count_and_height (157 / 50 : ℚ) (fun _ => 1 / 2) 3 2
      (fun _ => by norm_num)⟩

/-- Width of the `planeGeometry args={[18, 18, 64, 64]}` ground plane. -/
def groundPlaneSize : ℚ := 18

/-- C8: every generated seed satisfies `x, z ∈ [-4, 4)`, `h ∈ [0.6, 2.4)`,
`r ∈ [0, 2π)`; in particular `|x|` and `|z|` stay within half the 18×18
ground plane. -/
theorem seeds_in_range (rand : ℕ → ℝ) (count : ℕ)
    (hrand : ∀ i, 0 ≤ rand i ∧ rand i < 1) :
    ∀ s ∈ seeds Real.pi rand count,
      (-4 ≤ s.x ∧ s.x < 4) ∧ (-4 ≤ s.z ∧ s.z < 4) ∧
      (0.6 ≤ s.h ∧ s.h < 2.4) ∧ (0 ≤ s.r ∧ s.r < 2 * Real.pi) ∧
      |s.x| ≤ (groundPlaneSize : ℝ) / 2 ∧ |s.z| ≤ (groundPlaneSize : ℝ) / 2 := by
  intro s hs
  obtain ⟨i, _, rfl⟩ := List.mem_map.1 hs
  obtain ⟨hx0, hx1⟩ := hrand (4 * i)
  obtain ⟨hz0, hz1⟩ := hrand (4 * i + 1)
  obtain ⟨hh0, hh1⟩ := hrand (4 * i + 2)
  obtain ⟨hr0, hr1⟩ := hrand (4 * i + 3)
  have hpi := Real.pi_pos
  simp only [seedAt, groundPlaneSize]
  refine ⟨⟨by linarith, by linarith⟩, ⟨by linarith, by linarith⟩,
    ⟨by linarith, by linarith⟩, ⟨by positivity, by nlinarith⟩, ?_, ?_⟩ <;>
  · rw [abs_le]
    norm_num
    constructor <;> linarith

/-- Witness for C8: the range theorem applied to a concrete constant stream
of value `1/2` and a single instance. -/
theorem seeds_in_range_witness :
    (∀ i : ℕ, (0 : ℝ) ≤ (fun _ : ℕ => (1 : ℝ) / 2) i ∧ (fun _ : ℕ => (1 : ℝ) / 2) i < 1) ∧
    ∀ s ∈ seeds Real.pi (fun _ : ℕ => (1 : ℝ) / 2) 1,
      (-4 ≤ s.x ∧ s.x < 4) ∧ (-4 ≤ s.z ∧ s.z < 4) ∧
      (0.6 ≤ s.h ∧ s.h < 2.4) ∧ (0 ≤ s.r ∧ s.r < 2 * Real.pi) ∧
      |s.x| ≤ (groundPlaneSize : ℝ) / 2 ∧ |s.z| ≤ (groundPlaneSize : ℝ) / 2 :=
  ⟨fun _ => by norm_num,
    seeds_in_range (fun _ => 1 / 2) 1 (fun _ => by norm_num)⟩

/-- `FarmField`'s per-frame callback:
`fieldRef.current.rotation.y = Math.sin(state.clock.elapsedTime * 0.3) * 0.06`
(`sine` stands for `Math.sin`). -/
def fieldRotationY {α : Type} [Field α] (sine : α → α) (t : α) : α :=
  sine (t * 0.3) * 0.06

/-- C9: at every elapsed time `t` the y-rotation written by `FarmField`'s
frame callback equals `sin(t * 0.3) * 0.06`, whose absolute value never
exceeds `0.06`. -/
theorem fieldRotationY_bounded (t : ℝ) :
    fieldRotationY Real.sin t = Real.sin (t * 0.3) * 0.06 ∧
    |fieldRotationY Real.sin t| ≤ 0.06 := by
  refine ⟨rfl, ?_⟩
  have h1 : |Real.sin (t * 0.3)| ≤ 1 :=
    abs_le.2 ⟨Real.neg_one_le_sin _, Real.sin_le_one _⟩
  have h2 : |fieldRotationY Real.sin t| = |Real.sin (t * 0.3)| * 0.06 := by
    rw [show fieldRotationY Real.sin t = Real.sin (t * 0.3) * 0.06 from rfl, abs_mul]
    norm_num
  rw [h2]
  nlinarith [abs_nonneg (Real.sin (t * 0.3))]

/-! ### Dashboard (`Dashboard.jsx`)

`Dashboard` holds a `predictions` state (initially `null`) and a
`selectedLanguage` state (initially `'en'`).  Its `useEffect` (empty
dependency array, so it runs once per mount) schedules a 400ms `setTimeout`
whose callback assigns a hardcoded predictions literal, and returns a
cleanup that `clearTimeout`s it.  `YieldPredictionCard` renders three charts
from the `predictions` prop, substituting hardcoded fallback arrays via
`predictions?.field || fallback` when the field is absent (a JS array is
always truthy, so a present array field is never replaced). -/

/-- The `predictions` record shape consumed by `YieldPredictionCard`: each
field is optional, modelling `predictions?.field` access on arbitrary
objects. -/
structure Predictions where
  trend : Option (List ℚ)
  confidence : Option (List ℚ)
  risks : Option (List ℚ)
  deriving DecidableEq

def placeholderTrend : List ℚ := [3.2, 3.31, 3.35, 3.41, 3.46, 3.5, 3.58]

def placeholderConfidence : List ℚ := [0.84, 0.76, 0.72, 0.8]

def placeholderRisks : List ℚ := [55, 42, 68, 35, 45, 51]

/-- The hardcoded literal passed to `setPredictions` inside `Dashboard`'s
timed callback. -/
def dashboardPredictions : Predictions :=
  { trend := some placeholderTrend
  , confidence := some placeholderConfidence
  , risks := some placeholderRisks }

/-- Delay of the `setTimeout` in `Dashboard`'s effect, in milliseconds. -/
def dashboardDelay : ℕ := 400

/-- Scoped-timer semantics of `setTimeout` + `clearTimeout` cleanup: the
callback fires exactly when the component is still mounted once the delay
has elapsed (`unmountAt = none` means the component is never unmounted). -/
def timerFires (delay : ℕ) (unmountAt : Option ℕ) : Bool :=
  match unmountAt with
  | none => true
  | some u => decide (delay < u)

/-- The value the `predictions` state ends up with over a whole mount
lifetime: the literal if the timer fired, otherwise still `null`. -/
def appliedPredictions (unmountAt : Option ℕ) : Option Predictions :=
  if timerFires dashboardDelay unmountAt then some dashboardPredictions else none

/-- How many times `setPredictions` runs during one mount lifetime. -/
def assignmentCount (unmountAt : Option ℕ) : ℕ :=
  if timerFires dashboardDelay unmountAt then 1 else 0

/-- C4: over any mount lifetime the placeholder assignment runs at most
once; it runs exactly once when the component stays mounted; and if the
component unmounts before the 400ms delay elapses, the assignment is
cancelled and never applied. -/
theorem dashboard_assignment_once (u : ℕ) (hu : u < dashboardDelay) :
    appliedPredictions (some u) = none ∧ assignmentCount (some u) = 0 ∧
    assignmentCount none = 1 ∧ appliedPredictions none = some dashboardPredictions ∧
    ∀ m : Option ℕ, assignmentCount m ≤ 1 := by
  have hfire : timerFires dashboardDelay (some u) = false := by
    simp [timerFires, Nat.not_lt.2 (Nat.le_of_lt hu)]
  refine ⟨by simp [appliedPredictions, hfire], by simp [assignmentCount, hfire],
    rfl, rfl, ?_⟩
  intro m
  unfold assignmentCount
  split <;> simp

/-- Witness for C4: unmounting 100ms after mount, before the 400ms delay. -/
theorem dashboard_assignment_once_witness :
    (100 < dashboardDelay) ∧
    (appliedPredictions (some 100) = none ∧ assignmentCount (some 100) = 0 ∧
      assignmentCount none = 1 ∧ appliedPredictions none = some dashboardPredictions ∧
      ∀ m : Option ℕ, assignmentCount m ≤ 1) :=
  ⟨by decide, dashboard_assignment_once 100 (by decide)⟩

/-! #### The language selector -/

/-- The values of the three `<option>` elements of `LanguageSelector`. -/
def languageOptions : List String := ["en", "hi", "or"]

/-- `LanguageSelector`'s change handler:
`(e) => onLanguageChange(e.target.value)` — the callback receives exactly
the newly chosen value. -/
def selectorOnChange {σ : Type} (onLanguageChange : String → σ) (targetValue : String) : σ :=
  onLanguageChange targetValue

/-- `useState('en')`: the initial `selectedLanguage`. -/
def initialLanguage : String := "en"

/-- `Dashboard` wires `onLanguageChange := setSelectedLanguage`, so a change
event carrying value `v` replaces the state with `v`, whatever the previous
state was. -/
def languageStep (_state v : String) : String :=
  selectorOnChange id v

/-- The `selectedLanguage` state after a sequence of change events. -/
def languageState (events : List String) : String :=
  events.foldl languageStep initialLanguage

theorem languageState_foldl_mem (events : List String) :
    ∀ init : String, init ∈ languageOptions →
      (∀ v ∈ events, v ∈ languageOptions) →
      events.foldl languageStep init ∈ languageOptions := by
  induction events with
  | nil => intro init hinit _; exact hinit
  | cons v rest ih =>
    intro init _ hev
    exact ih (languageStep init v) (hev v (List.mem_cons_self _ _))
      (fun w hw => hev w (List.mem_cons_of_mem _ hw))

/-- C5: after any sequence of change events whose values come from the three
`<option>` elements, the selected value is one of the three supported codes
(`'en'`, `'hi'`, `'or'`); and every change event passes the newly chosen
code — never the previous one — to the callback. -/
theorem languageSelector_valid (events : List String)
    (hev : ∀ v ∈ events, v ∈ languageOptions) :
    languageState events ∈ languageOptions ∧
    (∀ state v : String, languageStep state v = v) ∧
    (∀ v : String, selectorOnChange id v = v) := by
  exact ⟨languageState_foldl_mem events initialLanguage (by decide) hev,
    fun _ _ => rfl, fun _ => rfl⟩

/-- Witness for C5: two concrete change events, `'hi'` then `'or'`. -/
theorem languageSelector_valid_witness :
    (∀ v ∈ ["hi", "or"], v ∈ languageOptions) ∧
    (languageState ["hi", "or"] ∈ languageOptions ∧
      (∀ state v : String, languageStep state v = v) ∧
      (∀ v : String, selectorOnChange id v = v)) :=
  ⟨by decide, languageSelector_valid ["hi", "or"] (by decide)⟩

/-! #### The chart widgets (`YieldPredictionCard`) -/

/-- Labels plus dataset values of one chart, as handed to the chart library. -/
structure ChartData where
  labels : List String
  data : List ℚ
  deriving DecidableEq

/-- `x || y` for an optional array-valued field: `undefined` is falsy and
selects the fallback; a JS array (even an empty one) is truthy and is kept. -/
def orFallback (x : Option (List ℚ)) (y : List ℚ) : List ℚ :=
  x.getD y

/-- `lineData`: labels `Array.from({length: 7}).map((_, i) => 'Day ' + (i+1))`
and dataset `predictions?.trend || [3.2, 3.3, 3.35, 3.4, 3.42, 3.45, 3.5]`. -/
def lineData (predictions : Option Predictions) : ChartData :=
  { labels := (List.range 7).map (fun i => "Day " ++ toString (i + 1))
  , data := orFallback (predictions.bind Predictions.trend)
      [3.2, 3.3, 3.35, 3.4, 3.42, 3.45, 3.5] }

/-- `barData`: the four crop labels and
`predictions?.confidence || [0.82, 0.76, 0.71, 0.79]`. -/
def barData (predictions : Option Predictions) : ChartData :=
  { labels := ["Rice", "Wheat", "Maize", "Sugarcane"]
  , data := orFallback (predictions.bind Predictions.confidence)
      [0.82, 0.76, 0.71, 0.79] }

/-- `radarData`: the six risk-factor labels and
`predictions?.risks || [60, 40, 70, 35, 45, 50]`. -/
def radarData (predictions : Option Predictions) : ChartData :=
  { labels := ["Rainfall", "Temperature", "Soil Moisture", "N", "P", "K"]
  , data := orFallback (predictions.bind Predictions.risks)
      [60, 40, 70, 35, 45, 50] }

/-- C6: the literal assigned by `Dashboard` has a trend of length 7 matching
the seven day labels, a confidence array of length 4 matching the four crop
labels, and a risks array of length 6 matching the six risk-factor labels;
and over any mount lifetime the `predictions` state is only ever `null` or
exactly this literal — it is never invalidated or replaced by anything else. -/
theorem dashboardPredictions_shape :
    placeholderTrend.length = 7 ∧
    placeholderTrend.length = (lineData none).labels.length ∧
    placeholderConfidence.length = 4 ∧
    placeholderConfidence.length = (barData none).labels.length ∧
    placeholderRisks.length = 6 ∧
    placeholderRisks.length = (radarData none).labels.length ∧
    dashboardPredictions.trend = some placeholderTrend ∧
    dashboardPredictions.confidence = some placeholderConfidence ∧
    dashboardPredictions.risks = some placeholderRisks ∧
    ∀ m : Option ℕ, appliedPredictions m = none ∨
      appliedPredictions m = some dashboardPredictions := by
  refine ⟨rfl, rfl, rfl, rfl, rfl, rfl, rfl, rfl, rfl, ?_⟩
  intro m
  unfold appliedPredictions
  split
  · exact Or.inr rfl
  · exact Or.inl rfl

/-- C7: with a `null` predictions input every widget renders its hardcoded
fallback array, and with a record whose corresponding field is present every
widget renders exactly the provided array. -/
theorem yieldPredictionCard_fallbacks :
    ((lineData none).data = [3.2, 3.3, 3.35, 3.4, 3.42, 3.45, 3.5] ∧
      (barData none).data = [0.82, 0.76, 0.71, 0.79] ∧
      (radarData none).data = [60, 40, 70, 35, 45, 50]) ∧
    (∀ (p : Predictions) (t : List ℚ), p.trend = some t →
      (lineData (some p)).data = t) ∧
    (∀ (p : Predictions) (c : List ℚ), p.confidence = some c →
      (barData (some p)).data = c) ∧
    (∀ (p : Predictions) (r : List ℚ), p.risks = some r →
      (radarData (some p)).data = r) := by
  refine ⟨⟨rfl, rfl, rfl⟩, ?_, ?_, ?_⟩ <;>
  · intro p a ha
    simp [lineData, barData, radarData, orFallback, ha]

/-- Witness for C7: the Dashboard literal itself as the provided record. -/
theorem yieldPredictionCard_fallbacks_witness :
    (lineData (some dashboardPredictions)).data = placeholderTrend ∧
    (barData (some dashboardPredictions)).data = placeholderConfidence ∧
    (radarData (some dashboardPredictions)).data = placeholderRisks :=
  ⟨yieldPredictionCard_fallbacks.2.1 dashboardPredictions placeholderTrend rfl,
    yieldPredictionCard_fallbacks.2.2.1 dashboardPredictions placeholderConfidence rfl,
    yieldPredictionCard_fallbacks.2.2.2 dashboardPredictions placeholderRisks rfl⟩

/-- C10: the chart labels are identical for any two values of the
`predictions` prop, and always equal the seven day labels, the four crop
names and the six risk-factor names. -/
theorem chart_labels_constant (p q : Option Predictions) :
    (lineData p).labels = (lineData q).labels ∧
    (barData p).labels = (barData q).labels ∧
    (radarData p).labels = (radarData q).labels ∧
    (lineData p).labels =
      ["Day 1", "Day 2", "Day 3", "Day 4", "Day 5", "Day 6", "Day 7"] ∧
    (barData p).labels = ["Rice", "Wheat", "Maize", "Sugarcane"] ∧
    (radarData p).labels = ["Rainfall", "Temperature", "Soil Moisture", "N", "P", "K"] :=
  ⟨rfl, rfl, rfl, rfl, rfl, rfl⟩

end SIH
